import Mathlib

/-!
Shallow embedding of the pl_gpib library (a Prologix GPIB-USB controller
driver): `pl_gpib/commands.py`, `pl_gpib/controller.py`,
`pl_gpib/instrument.py`, `pl_gpib/exc.py`.

Byte strings are modelled as ASCII `String`s (the library's encoding is
`'ascii'`, so `bytes(s, 'ascii')` and `bytes.decode('ascii')` are the
identity in this model).  The serial channel is modelled as a log of
written chunks plus a queue of pending response chunks.  Python
exceptions are modelled with `Except PyExn`; every fallible operation
returns its result together with the state as mutated up to the point
where the exception (if any) was raised.
-/

deriving instance DecidableEq for Except

namespace PlGpib

/-- The whitespace set trimmed by Python's `bytes.strip()`. -/
def pyIsSpace (c : Char) : Bool :=
  c = ' ' || c = '\t' || c = '\n' || c = '\r' || c = '\x0b' || c = '\x0c'

/-- Python `bytes.strip()`: drop leading and trailing whitespace. -/
def pyStrip (s : String) : String :=
  ⟨((s.data.dropWhile pyIsSpace).reverse.dropWhile pyIsSpace).reverse⟩

/-- Python `sep.join(parts)`. -/
def pyJoin (sep : String) : List String → String
  | [] => ""
  | [x] => x
  | x :: y :: xs => x ++ sep ++ pyJoin sep (y :: xs)

/-- Python exceptions raised by the code paths modelled here. -/
inductive PyExn where
  /-- `pl_gpib.exc.UnrecognizedCommandError` -/
  | unrecognizedCommand
  /-- `pl_gpib.exc.GPIBAddressInUseError`; carries the conflicting address
  and the owning instrument (by id) named in the error message. -/
  | addressInUse (address : Int) (owner : Nat)
  /-- Python `TypeError` -/
  | typeError
  /-- Python `ValueError` -/
  | valueError
  /-- Python `AssertionError` -/
  | assertionError
  /-- Python `AttributeError` -/
  | attributeError
deriving DecidableEq

/-- Digit-string accumulator used by `pyToInt`. -/
def digitsVal : List Char → Nat → Option Nat
  | [], acc => some acc
  | c :: rest, acc =>
      if c.isDigit then digitsVal rest (acc * 10 + (c.toNat - 48)) else none

/-- Python `int(b)` on a byte string: surrounding whitespace allowed, an
optional sign, then at least one decimal digit; otherwise `ValueError`. -/
def pyToInt (s : String) : Except PyExn Int :=
  match (pyStrip s).data with
  | '-' :: rest =>
      if rest = [] then .error .valueError
      else match digitsVal rest 0 with
        | some n => .ok (-(n : Int))
        | none => .error .valueError
  | '+' :: rest =>
      if rest = [] then .error .valueError
      else match digitsVal rest 0 with
        | some n => .ok (n : Int)
        | none => .error .valueError
  | cs =>
      if cs = [] then .error .valueError
      else match digitsVal cs 0 with
        | some n => .ok (n : Int)
        | none => .error .valueError

/-- The duplex byte channel (`serial.Serial` or a spy wrapper): a log of
chunks written so far and a queue of response chunks the device will
answer with. -/
structure SerialPort where
  written : List String
  pending : List String
deriving DecidableEq

/-- `serial.write(b)`. -/
def SerialPort.write (s : SerialPort) (b : String) : SerialPort :=
  { s with written := s.written ++ [b] }

/-- `serial.read(n)`: up to `n` bytes of the next pending chunk; an empty
result on timeout (no pending data).  Bytes beyond `n` stay buffered. -/
def SerialPort.read (s : SerialPort) (n : Nat) : String × SerialPort :=
  match s.pending with
  | [] => ("", s)
  | c :: rest =>
      if c.length ≤ n then (c, { s with pending := rest })
      else (⟨c.data.take n⟩, { s with pending := (⟨c.data.drop n⟩ : String) :: rest })

/-- Split a chunk at the first newline, keeping the newline with the
head part. -/
def lineSplit : List Char → List Char × List Char
  | [] => ([], [])
  | c :: rest =>
      if c = '\n' then ([c], rest)
      else
        let (l, r) := lineSplit rest
        (c :: l, r)

/-- `serial.readline()`: bytes of the next pending chunk up to and
including the first newline (the whole chunk when it has none). -/
def SerialPort.readline (s : SerialPort) : String × SerialPort :=
  match s.pending with
  | [] => ("", s)
  | c :: rest =>
      let (l, r) := lineSplit c.data
      if r = [] then ((⟨l⟩ : String), { s with pending := rest })
      else ((⟨l⟩ : String), { s with pending := (⟨r⟩ : String) :: rest })

/-! ## pl_gpib/commands.py -/

/-- `commands.DEFAULT_QUERY_READ`. -/
def DEFAULT_QUERY_READ : Int := 100

/-- `commands.CommandString`: name plus literal command text. -/
structure CommandString where
  name : String
  command_text : String
deriving DecidableEq

/-- `CommandString.__call__(*args)`: join the command text and the
stringified arguments with single spaces.  Arguments are taken here in
their `str(a)` form (Python's `str` on a `str` is the identity). -/
def CommandString.call (c : CommandString) (args : List String) : String :=
  pyJoin " " (c.command_text :: args)

/-- `commands.QueryString`: a command plus the number of bytes to read
back (`DEFAULT_QUERY_READ` when not given). -/
structure QueryString where
  name : String
  command_text : String
  read_bytes : Int := DEFAULT_QUERY_READ
deriving DecidableEq

/-- `QueryString.__call__(self)`: appends `?` to the command text.  The
method accepts no positional arguments, so Python raises `TypeError`
when any are supplied at the call site. -/
def QueryString.call (q : QueryString) (args : List String) : Except PyExn String :=
  if args = [] then .ok (q.command_text ++ "?") else .error .typeError

/-- A registry entry: either a `CommandString` or a `QueryString`. -/
inductive Entry where
  | cmd (c : CommandString)
  | qry (q : QueryString)
deriving DecidableEq

/-- The `name` attribute of an entry. -/
def Entry.name : Entry → String
  | .cmd c => c.name
  | .qry q => q.name

/-- `commands.CommandContainer`: the `commands` dict (insertion-ordered
association list with unique keys) plus the instance attributes created
by `setattr` — each bound wrapper is represented by the `Entry` it
captured.  The back reference to the owning instrument is implicit (the
operations below take the owner's id). -/
structure CommandContainer where
  commands : List (String × Entry)
  attrs : List (String × Entry)
deriving DecidableEq

/-- Python `setattr` on the container: overwrite an existing instance
attribute or add a new one. -/
def pySetAttr (l : List (String × Entry)) (k : String) (v : Entry) :
    List (String × Entry) :=
  if (l.lookup k).isSome then
    l.map (fun p => if p.1 = k then (k, v) else p)
  else l ++ [(k, v)]

/-- Python `getattr` on the container: instance attributes only (the
class itself defines no command attributes). -/
def pyGetAttr (c : CommandContainer) (attrName : String) : Option Entry :=
  c.attrs.lookup attrName

/-- `CommandContainer.add_command`: when `command.name` is not yet a key
of `commands`, store it and `setattr` the bound wrapper under
`command.name`; otherwise do nothing. -/
def CommandContainer.add_command (c : CommandContainer) (e : Entry) :
    CommandContainer :=
  if (c.commands.lookup e.name).isSome then c
  else
    { commands := c.commands ++ [(e.name, e)]
      attrs := pySetAttr c.attrs e.name e }

/-- `CommandContainer.list_all`: `sorted(self.commands.keys())`.
`insertionSort` by `≤` computes the same ascending ordering as Python's
`sorted`. -/
def CommandContainer.list_all (c : CommandContainer) : List String :=
  List.insertionSort (· ≤ ·) (c.commands.map Prod.fst)

/-! ## pl_gpib/controller.py -/

/-- `controller.DEFAULT_EOI`. -/
def DEFAULT_EOI : String := "\n"

/-- `exc.ERROR_MESSAGES`: known bridge error strings and the exception
each maps to. -/
def ERROR_MESSAGES : List (String × PyExn) :=
  [("Unrecognized Command", .unrecognizedCommand)]

/-- `controller.GPIBController` state: line terminator, owned serial
channel, cached address / mode / version, and the instrument map
(address to instrument id, insertion-ordered, unique keys). -/
structure GPIBController where
  eoi_char : String
  serial : SerialPort
  address : Option Int
  mode : Option Int
  version : Option String
  instruments : List (Int × Nat)
deriving DecidableEq

/-- `GPIBController.write`: append the EOI character, encode (identity
for ASCII) and write to the channel. -/
def GPIBController.write (c : GPIBController) (command : String) : GPIBController :=
  { c with serial := c.serial.write (command ++ c.eoi_char) }

/-- `GPIBController.read(n)`: issue `++read eoi`, read up to `n` bytes,
strip; raise the mapped error when the *stripped* bytes are a known
error string, else return the stripped bytes. -/
def GPIBController.read (c : GPIBController) (n : Nat) :
    Except PyExn String × GPIBController :=
  let c := c.write "++read eoi"
  let pr := c.serial.read n
  let c := { c with serial := pr.2 }
  let resp := pyStrip pr.1
  match ERROR_MESSAGES.lookup resp with
  | some err => (.error err, c)
  | none => (.ok resp, c)

/-- `GPIBController.readline`: issue `++read eoi`, read one line; raise
the mapped error when the *raw* bytes are a known error string, else
return the stripped bytes. -/
def GPIBController.readline (c : GPIBController) :
    Except PyExn String × GPIBController :=
  let c := c.write "++read eoi"
  let pr := c.serial.readline
  let c := { c with serial := pr.2 }
  match ERROR_MESSAGES.lookup pr.1 with
  | some err => (.error err, c)
  | none => (.ok (pyStrip pr.1), c)

/-- `GPIBController.query_address`: write `++addr`, read 10 bytes,
coerce to `int` and cache it. -/
def GPIBController.query_address (c : GPIBController) :
    Except PyExn Int × GPIBController :=
  let c := c.write "++addr"
  match c.read 10 with
  | (.error e, c) => (.error e, c)
  | (.ok s, c) =>
      match pyToInt s with
      | .error e => (.error e, c)
      | .ok a => (.ok a, { c with address := some a })

/-- `GPIBController.set_address`: coerce to `int` (a `None` address is a
`TypeError`), write `++addr {n}` and update the cached address. -/
def GPIBController.set_address (c : GPIBController) (address : Option Int) :
    Except PyExn Unit × GPIBController :=
  match address with
  | none => (.error .typeError, c)
  | some a =>
      let c := c.write ("++addr " ++ toString a)
      (.ok (), { c with address := some a })

/-- `GPIBController.set_mode`: write `++mode {m}` and cache the mode,
with no range check on `m`. -/
def GPIBController.set_mode (c : GPIBController) (mode : Int) : GPIBController :=
  let c := c.write ("++mode " ++ toString mode)
  { c with mode := some mode }

/-- `GPIBController.query_version`: write `++ver`, read 100 bytes,
decode (identity) and cache the version. -/
def GPIBController.query_version (c : GPIBController) :
    Except PyExn String × GPIBController :=
  let c := c.write "++ver"
  match c.read 100 with
  | (.error e, c) => (.error e, c)
  | (.ok resp, c) => (.ok resp, { c with version := some resp })

/-- `GPIBController.__init__` with an externally supplied `connection`
channel: query version, set the mode (default `1`, CONTROLLER), query
the address. -/
def GPIBController.init (serial : SerialPort) (mode : Option Int) :
    Except PyExn GPIBController :=
  let c : GPIBController :=
    { eoi_char := DEFAULT_EOI, serial := serial, address := none,
      mode := none, version := none, instruments := [] }
  match c.query_version with
  | (.error e, _) => .error e
  | (.ok _, c) =>
      let m : Int := match mode with | some m => m | none => 1
      let c := c.set_mode m
      match c.query_address with
      | (.error e, _) => .error e
      | (.ok _, c) => .ok c

/-! ## pl_gpib/instrument.py -/

/-- `GPIBInstrument.base_queries`, in dict insertion order: dict key
paired with the `QueryString` (whose own `name` attribute may differ
from the key). -/
def base_queries : List (String × QueryString) :=
  [ ("ident", { name := "identification", command_text := "*IDN", read_bytes := 100 }),
    ("event_status_enable", { name := "event_status_enable", command_text := "*ESE" }),
    ("event_status_register", { name := "event_status_register", command_text := "*ESR" }),
    ("operation_complete", { name := "operation_complete", command_text := "*OPC" }),
    ("options", { name := "options", command_text := "*OPT" }),
    ("service_request_enable", { name := "service_request_enable", command_text := "*SRE" }),
    ("read_status_byte", { name := "read_status_byte", command_text := "*STB" }),
    ("self_test", { name := "self_test", command_text := "*TST" }) ]

/-- `GPIBInstrument.base_commands`, in dict insertion order. -/
def base_commands : List (String × CommandString) :=
  [ ("clear", { name := "clear", command_text := "*CLS" }),
    ("event_status_enable", { name := "event_status_enable", command_text := "*ESE" }),
    ("operation_complete", { name := "operation_complete", command_text := "*OPC" }),
    ("recall_instrument_setting", { name := "recall_instrument_setting", command_text := "*RCL" }),
    ("reset", { name := "reset", command_text := "*RST" }),
    ("save", { name := "save", command_text := "*SAV" }),
    ("service_request_enable", { name := "service_request_enable", command_text := "*SRE" }),
    ("wait", { name := "wait", command_text := "*WAI" }) ]

/-- `_init_query` / `_init_command`: fold the table's values into a fresh
container via `add_command` (the class-level `queries` / `commands`
tables are empty dicts, so they add nothing). -/
def initContainer (entries : List Entry) : CommandContainer :=
  entries.foldl CommandContainer.add_command { commands := [], attrs := [] }

/-- `instrument.GPIBInstrument` state.  `connection` is `true` when the
back reference to the (single) controller is set. -/
structure GPIBInstrument where
  address : Option Int
  name : Option String
  connection : Bool
  query : CommandContainer
  command : CommandContainer
deriving DecidableEq

/-- `GPIBInstrument.__init__(address, name)` (no connection): populate
the two containers from the base tables. -/
def GPIBInstrument.init (address : Option Int) (name : Option String) :
    GPIBInstrument :=
  { address := address, name := name, connection := false,
    query := initContainer (base_queries.map (fun p => .qry p.2)),
    command := initContainer (base_commands.map (fun p => .cmd p.2)) }

/-- The whole mutable world: the controller plus the instrument objects
(referenced by index, mirroring Python object identity). -/
structure Sys where
  ctrl : GPIBController
  insts : List GPIBInstrument
deriving DecidableEq

/-- Dereference instrument id `i`. -/
def Sys.instGet (sys : Sys) (i : Nat) : GPIBInstrument :=
  sys.insts.getD i ⟨none, none, false, ⟨[], []⟩, ⟨[], []⟩⟩

/-- Mutate instrument id `i` in place. -/
def Sys.setInst (sys : Sys) (i : Nat) (f : GPIBInstrument → GPIBInstrument) : Sys :=
  { sys with insts := sys.insts.set i (f (sys.instGet i)) }

/-- `GPIBInstrument.write`: when attached, first re-select the bus
address on the controller if the instrument's address differs from the
controller's cached one, then forward the write; silently do nothing
when unattached. -/
def GPIBInstrument.write (sys : Sys) (i : Nat) (command : String) :
    Except PyExn Unit × Sys :=
  let inst := sys.instGet i
  if inst.connection then
    if inst.address ≠ sys.ctrl.address then
      match sys.ctrl.set_address inst.address with
      | (.error e, c) => (.error e, { sys with ctrl := c })
      | (.ok _, c) => (.ok (), { sys with ctrl := c.write command })
    else
      (.ok (), { sys with ctrl := sys.ctrl.write command })
  else (.ok (), sys)

/-- `GPIBInstrument.read(n)`: delegate to the controller when attached,
else return `None`. -/
def GPIBInstrument.read (sys : Sys) (i : Nat) (n : Nat) :
    Except PyExn (Option String) × Sys :=
  if (sys.instGet i).connection then
    match sys.ctrl.read n with
    | (.error e, c) => (.error e, { sys with ctrl := c })
    | (.ok s, c) => (.ok (some s), { sys with ctrl := c })
  else (.ok none, sys)

/-- `GPIBInstrument.readline`: delegate to the controller when attached,
else return `None`. -/
def GPIBInstrument.readline (sys : Sys) (i : Nat) :
    Except PyExn (Option String) × Sys :=
  if (sys.instGet i).connection then
    match sys.ctrl.readline with
    | (.error e, c) => (.error e, { sys with ctrl := c })
    | (.ok s, c) => (.ok (some s), { sys with ctrl := c })
  else (.ok none, sys)

/-- The wrapper closure bound by `CommandContainer.add_command`: render
the captured command with the call arguments, write it through the
owning instrument and, for a query, read the response back (line read
for a negative `read_bytes`, fixed-size read otherwise); a plain
command returns `None`. -/
def wrapperCall (sys : Sys) (i : Nat) (e : Entry) (args : List String) :
    Except PyExn (Option String) × Sys :=
  match e with
  | .cmd c =>
      match GPIBInstrument.write sys i (c.call args) with
      | (.error er, sys) => (.error er, sys)
      | (.ok _, sys) => (.ok none, sys)
  | .qry q =>
      match q.call args with
      | .error er => (.error er, sys)
      | .ok text =>
          match GPIBInstrument.write sys i text with
          | (.error er, sys) => (.error er, sys)
          | (.ok _, sys) =>
              if q.read_bytes < 0 then GPIBInstrument.readline sys i
              else GPIBInstrument.read sys i q.read_bytes.toNat

/-- `GPIBInstrument.add_connection`: store the back reference, then call
`self.query.ident()` — an attribute lookup of `"ident"` on the query
container followed by a wrapper call (`AttributeError` when no such
attribute was bound).  A non-`None` identity sets `name` and yields
`True`; a `None` identity yields `False`. -/
def GPIBInstrument.add_connection (sys : Sys) (i : Nat) :
    Except PyExn Bool × Sys :=
  let sys := sys.setInst i (fun inst => { inst with connection := true })
  match pyGetAttr (sys.instGet i).query "ident" with
  | none => (.error .attributeError, sys)
  | some e =>
      match wrapperCall sys i e [] with
      | (.error er, sys) => (.error er, sys)
      | (.ok (some s), sys) =>
          (.ok true, sys.setInst i (fun inst => { inst with name := some s }))
      | (.ok none, sys) => (.ok false, sys)

/-- Python dict assignment `d[k] = v`: overwrite or append. -/
def dictInsert (l : List (Int × Nat)) (k : Int) (v : Nat) : List (Int × Nat) :=
  if (l.lookup k).isSome then
    l.map (fun p => if p.1 = k then (k, v) else p)
  else l ++ [(k, v)]

/-- `GPIBController.add_instrument`: resolve the effective address
(`address or instrument.address`, where a `0` argument is falsy in
Python), assert it is set, reject an occupied address with
`GPIBAddressInUseError` naming the owner, re-address the instrument if
needed, run the attach handshake, and store the instrument only when
the handshake returned `True`.  The `isinstance` guard always passes in
this model (every instrument is a `GPIBInstrument`). -/
def GPIBController.add_instrument (sys : Sys) (i : Nat) (address : Option Int) :
    Except PyExn Unit × Sys :=
  let inst := sys.instGet i
  let addressO : Option Int :=
    match address with
    | some a => if a = 0 then inst.address else some a
    | none => inst.address
  match addressO with
  | none => (.error .assertionError, sys)
  | some addr =>
      match sys.ctrl.instruments.lookup addr with
      | some owner => (.error (.addressInUse addr owner), sys)
      | none =>
          let sys :=
            if some addr ≠ inst.address then
              sys.setInst i (fun j => { j with address := some addr })
            else sys
          match GPIBInstrument.add_connection sys i with
          | (.error e, sys) => (.error e, sys)
          | (.ok true, sys) =>
              (.ok (),
               { sys with
                  ctrl := { sys.ctrl with
                             instruments := dictInsert sys.ctrl.instruments addr i } })
          | (.ok false, sys) => (.ok (), sys)

/-! ## Helper lemmas -/

theorem pyJoin_cons_eq_foldr (sep x : String) (xs : List String) :
    pyJoin sep (x :: xs) = x ++ xs.foldr (fun a acc => sep ++ a ++ acc) "" := by
  induction xs generalizing x with
  | nil => simp [pyJoin]
  | cons y ys ih =>
      show x ++ sep ++ pyJoin sep (y :: ys) = _
      rw [ih y]
      simp [String.append_assoc]

theorem SerialPort.read_write_fst (s : SerialPort) (b : String) (n : Nat) :
    ((s.write b).read n).1 = (s.read n).1 := by
  cases h : s.pending with
  | nil => simp [SerialPort.write, SerialPort.read, h]
  | cons a l =>
      simp only [SerialPort.write, SerialPort.read, h]
      split <;> rfl

theorem SerialPort.readline_write_fst (s : SerialPort) (b : String) :
    ((s.write b).readline).1 = (s.readline).1 := by
  cases h : s.pending with
  | nil => simp [SerialPort.write, SerialPort.readline, h]
  | cons a l =>
      simp only [SerialPort.write, SerialPort.readline, h]
      split <;> rfl

theorem ERROR_MESSAGES_lookup (s : String) :
    ERROR_MESSAGES.lookup s =
      if s = "Unrecognized Command" then some .unrecognizedCommand else none := by
  by_cases h : s = "Unrecognized Command"
  · simp [ERROR_MESSAGES, List.lookup, h]
  · have hb : (s == "Unrecognized Command") = false := beq_eq_false_iff_ne.mpr h
    simp [ERROR_MESSAGES, List.lookup, hb, h]

theorem GPIBController.read_fst (c : GPIBController) (n : Nat) :
    (c.read n).1 =
      if pyStrip (c.serial.read n).1 = "Unrecognized Command"
      then .error .unrecognizedCommand
      else .ok (pyStrip (c.serial.read n).1) := by
  have h1 : ((c.serial.write ("++read eoi" ++ c.eoi_char)).read n).1 =
      (c.serial.read n).1 :=
    SerialPort.read_write_fst c.serial ("++read eoi" ++ c.eoi_char) n
  simp only [GPIBController.read, GPIBController.write, ERROR_MESSAGES_lookup, h1]
  by_cases h : pyStrip (c.serial.read n).1 = "Unrecognized Command" <;> simp [h]

theorem GPIBController.readline_fst (c : GPIBController) :
    (c.readline).1 =
      if (c.serial.readline).1 = "Unrecognized Command"
      then .error .unrecognizedCommand
      else .ok (pyStrip (c.serial.readline).1) := by
  have h1 : ((c.serial.write ("++read eoi" ++ c.eoi_char)).readline).1 =
      (c.serial.readline).1 :=
    SerialPort.readline_write_fst c.serial ("++read eoi" ++ c.eoi_char)
  simp only [GPIBController.readline, GPIBController.write, ERROR_MESSAGES_lookup, h1]
  by_cases h : (c.serial.readline).1 = "Unrecognized Command" <;> simp [h]

/-! ## Claims -/

/-- C1 counterexample: the byte sequence received from the channel is
`" Unrecognized Command"` (leading space) — not exactly the error bytes
— yet `read` raises `UnrecognizedCommandError` instead of returning the
trimmed bytes, because `read` strips the response *before* the
error-string check. -/
theorem read_strip_counterexample :
    (SerialPort.read ⟨["++read eoi\n"], [" Unrecognized Command"]⟩ 50).1 =
      " Unrecognized Command"
    ∧ " Unrecognized Command" ≠ "Unrecognized Command"
    ∧ (GPIBController.read
        ⟨"\n", ⟨[], [" Unrecognized Command"]⟩, none, none, none, []⟩ 50).1 =
      .error .unrecognizedCommand := by
  decide

/-- C1 (amended): `readline` raises `UnrecognizedCommandError` exactly
when the raw received bytes are `"Unrecognized Command"` and otherwise
returns them trimmed; `read` raises exactly when the received bytes
*trim to* `"Unrecognized Command"` and otherwise returns them
trimmed. -/
theorem read_readline_error_check (c : GPIBController) (n : Nat) :
    ((c.read n).1 = .error .unrecognizedCommand ↔
      pyStrip (c.serial.read n).1 = "Unrecognized Command")
    ∧ (pyStrip (c.serial.read n).1 ≠ "Unrecognized Command" →
        (c.read n).1 = .ok (pyStrip (c.serial.read n).1))
    ∧ ((c.readline).1 = .error .unrecognizedCommand ↔
        (c.serial.readline).1 = "Unrecognized Command")
    ∧ ((c.serial.readline).1 ≠ "Unrecognized Command" →
        (c.readline).1 = .ok (pyStrip (c.serial.readline).1)) := by
  refine ⟨?_, fun h => ?_, ?_, fun h => ?_⟩
  · rw [GPIBController.read_fst]
    by_cases h : pyStrip (c.serial.read n).1 = "Unrecognized Command" <;> simp [h]
  · rw [GPIBController.read_fst]
    simp [h]
  · rw [GPIBController.readline_fst]
    by_cases h : (c.serial.readline).1 = "Unrecognized Command" <;> simp [h]
  · rw [GPIBController.readline_fst]
    simp [h]

/-- C1 witness: on a channel answering `"hello"`, `read` and `readline`
both return the trimmed data. -/
theorem read_readline_error_check_witness :
    (pyStrip ((SerialPort.read ⟨[], ["hello"]⟩ 5).1) ≠ "Unrecognized Command"
      ∧ (GPIBController.read ⟨"\n", ⟨[], ["hello"]⟩, none, none, none, []⟩ 5).1 =
          .ok "hello")
    ∧ ((SerialPort.readline ⟨[], ["hello"]⟩).1 ≠ "Unrecognized Command"
      ∧ (GPIBController.readline ⟨"\n", ⟨[], ["hello"]⟩, none, none, none, []⟩).1 =
          .ok "hello") :=
  ⟨⟨by decide,
    (read_readline_error_check ⟨"\n", ⟨[], ["hello"]⟩, none, none, none, []⟩ 5).2.1
      (by decide)⟩,
   ⟨by decide,
    (read_readline_error_check ⟨"\n", ⟨[], ["hello"]⟩, none, none, none, []⟩ 5).2.2.2
      (by decide)⟩⟩

/-- C5: a controller constructed against a channel answering the
version read with `"3.0"` and the address read with `"6"`, with the
default mode, ends with `version = "3.0"`, `mode = 1` and
`address = 6`. -/
theorem controller_init_round_trip :
    (GPIBController.init ⟨[], ["3.0", "6"]⟩ none).toOption.map
      (fun c => (c.version, c.mode, c.address)) =
    some (some "3.0", some 1, some 6) := by
  decide

/-- C7: a plain command renders as the template followed by exactly the
stringified arguments, each preceded by a single space; with no
arguments, exactly the template. -/
theorem command_call_renders (c : CommandString) :
    c.call [] = c.command_text
    ∧ ∀ args : List String,
        c.call args =
          c.command_text ++ args.foldr (fun a acc => " " ++ a ++ acc) "" := by
  refine ⟨rfl, fun args => ?_⟩
  simpa [CommandString.call] using pyJoin_cons_eq_foldr " " c.command_text args

/-- C8 counterexample: rendering a query with the non-empty argument
list `["1"]` does not produce `template + "?"` — the no-argument
`__call__` raises `TypeError`. -/
theorem query_call_args_counterexample :
    QueryString.call ⟨"identification", "*IDN", 100⟩ ["1"] = .error .typeError
    ∧ (Except.error PyExn.typeError : Except PyExn String) ≠
        .ok ("*IDN" ++ "?") := by
  decide

/-- C8 (amended): rendering a query with no arguments produces exactly
`template + "?"`; any non-empty argument list is rejected with a
`TypeError` rather than ignored. -/
theorem query_call_spec (q : QueryString) :
    q.call [] = .ok (q.command_text ++ "?")
    ∧ ∀ args : List String, args ≠ [] → q.call args = .error .typeError := by
  refine ⟨by simp [QueryString.call], fun args h => ?_⟩
  simp [QueryString.call, h]

/-- C8 witness: the read-status-byte query rejects the argument list
`["1"]`. -/
theorem query_call_spec_witness :
    (["1"] ≠ ([] : List String))
    ∧ QueryString.call ⟨"read_status_byte", "*STB", 100⟩ ["1"] =
        .error .typeError :=
  ⟨by decide, (query_call_spec ⟨"read_status_byte", "*STB", 100⟩).2 ["1"] (by decide)⟩

/-- C10: `set_mode` validates nothing — for every integer `m` it writes
`++mode m` on the wire and caches `mode = m`, leaving every other
controller field untouched. -/
theorem set_mode_no_validation (c : GPIBController) (m : Int) :
    (c.set_mode m).mode = some m
    ∧ (c.set_mode m).serial.written =
        c.serial.written ++ ["++mode " ++ toString m ++ c.eoi_char]
    ∧ (c.set_mode m).serial.pending = c.serial.pending
    ∧ (c.set_mode m).address = c.address
    ∧ (c.set_mode m).version = c.version
    ∧ (c.set_mode m).instruments = c.instruments := by
  simp [GPIBController.set_mode, GPIBController.write, SerialPort.write]

/-- Scenario for C2, success arm: an attached-to-be instrument at the
controller's current address; the channel would answer the IDN read
with `"ACME,Model1,SN123,1.0"`. -/
def sysACME : Sys :=
  ⟨⟨"\n", ⟨[], ["ACME,Model1,SN123,1.0"]⟩, some 6, some 1, some "3.0", []⟩,
   [GPIBInstrument.init (some 6) none]⟩

/-- Scenario for C2, failure arm: the channel would answer the IDN read
with empty bytes. -/
def sysEmptyIdent : Sys :=
  ⟨⟨"\n", ⟨[], [""]⟩, some 6, some 1, some "3.0", []⟩,
   [GPIBInstrument.init (some 6) none]⟩

/-- C2 (code bug): in both arms of the claim's scenario,
`add_connection` raises `AttributeError` before any byte reaches the
wire — the ident query is bound on the container under its
`QueryString` name `"identification"`, while `add_connection` looks up
`self.query.ident` — so `name` is never set and no boolean is ever
returned. -/
theorem add_connection_attribute_crash :
    ((GPIBInstrument.add_connection sysACME 0).1 = .error .attributeError
      ∧ ((GPIBInstrument.add_connection sysACME 0).2.instGet 0).name = none
      ∧ (GPIBInstrument.add_connection sysACME 0).2.ctrl.serial.written = [])
    ∧ ((GPIBInstrument.add_connection sysEmptyIdent 0).1 = .error .attributeError
      ∧ ((GPIBInstrument.add_connection sysEmptyIdent 0).2.instGet 0).name = none) := by
  decide

/-- Scenario for C3: two standalone instruments both claiming bus
address 6, to be added to the same controller in turn. -/
def sysTwo : Sys :=
  ⟨⟨"\n", ⟨[], []⟩, some 6, some 1, some "3.0", []⟩,
   [GPIBInstrument.init (some 6) none, GPIBInstrument.init (some 6) none]⟩

/-- C3 (code bug): calling `add_instrument` twice with the same address
never raises `GPIBAddressInUseError` — the first call crashes with
`AttributeError` in the identification handshake and stores nothing, so
the second call takes the same crash instead of the address-conflict
branch, and no instrument ever owns the address. -/
theorem add_instrument_twice_crash :
    (GPIBController.add_instrument sysTwo 0 (some 6)).1 = .error .attributeError
    ∧ (GPIBController.add_instrument sysTwo 0 (some 6)).2.ctrl.instruments = []
    ∧ (GPIBController.add_instrument
        ((GPIBController.add_instrument sysTwo 0 (some 6)).2) 1 (some 6)).1 =
        .error .attributeError
    ∧ (GPIBController.add_instrument
        ((GPIBController.add_instrument sysTwo 0 (some 6)).2) 1 (some 6)).2.ctrl.instruments = [] := by
  decide

/-- Scenario for C4: a fresh instrument at free address 10 (the demo
script's setup); the channel would answer the IDN read with empty
bytes, i.e. no identification. -/
def sysFresh : Sys :=
  ⟨⟨"\n", ⟨[], [""]⟩, some 6, some 1, some "3.0", []⟩,
   [GPIBInstrument.init (some 10) none]⟩

/-- C4 (code bug): when the identification handshake cannot succeed,
`add_instrument` does leave the instrument out of the map, but it
raises (`AttributeError` from `self.query.ident`) instead of reporting
the failure through its boolean result. -/
theorem add_instrument_handshake_crash :
    (GPIBController.add_instrument sysFresh 0 none).1 = .error .attributeError
    ∧ (GPIBController.add_instrument sysFresh 0 none).2.ctrl.instruments = [] := by
  decide

/-- C6: a connected instrument's `write` issues `++addr` with the
instrument's address before the payload exactly when that address
differs from the controller's cached one, otherwise only the payload;
afterwards the cached address equals the instrument's. -/
theorem instrument_write_readdress (sys : Sys) (i : Nat) (command : String) (a : Int)
    (hc : (sys.instGet i).connection = true)
    (ha : (sys.instGet i).address = some a) :
    (GPIBInstrument.write sys i command).1 = .ok ()
    ∧ (GPIBInstrument.write sys i command).2.ctrl.serial.written =
        sys.ctrl.serial.written ++
          (if sys.ctrl.address = some a then []
           else ["++addr " ++ toString a ++ sys.ctrl.eoi_char])
          ++ [command ++ sys.ctrl.eoi_char]
    ∧ (GPIBInstrument.write sys i command).2.ctrl.address = some a
    ∧ (GPIBInstrument.write sys i command).2.insts = sys.insts
    ∧ (GPIBInstrument.write sys i command).2.ctrl.serial.pending =
        sys.ctrl.serial.pending := by
  by_cases h : sys.ctrl.address = some a
  · simp [GPIBInstrument.write, hc, ha, h, GPIBController.write, SerialPort.write]
  · have h' : some a ≠ sys.ctrl.address := fun e => h e.symm
    simp [GPIBInstrument.write, hc, ha, h, h', GPIBController.set_address,
      GPIBController.write, SerialPort.write, List.append_assoc]

/-- Scenario for the C6 witness: a connected instrument at bus address
6 while the controller's cached address is 2. -/
def sysMismatch : Sys :=
  ⟨⟨"\n", ⟨[], []⟩, some 2, some 1, some "3.0", []⟩,
   [⟨some 6, none, true, ⟨[], []⟩, ⟨[], []⟩⟩]⟩

/-- C6 witness: instrument at address 6, controller cached at 2 — after
the write the controller's cached address is 6. -/
theorem instrument_write_readdress_witness :
    ((sysMismatch.instGet 0).connection = true
      ∧ (sysMismatch.instGet 0).address = some 6)
    ∧ (GPIBInstrument.write sysMismatch 0 "MEAS:VOLT?").2.ctrl.address = some 6 :=
  ⟨⟨by decide, by decide⟩,
   (instrument_write_readdress sysMismatch 0 "MEAS:VOLT?" 6
      (by decide) (by decide)).2.2.1⟩

/-- C9: registering a command whose name is already a key is a complete
no-op — the container (entries and bound attributes) is unchanged — and
the sorted name listing stays duplicate-free. -/
theorem add_command_existing_noop (c : CommandContainer) (e : Entry)
    (h : (c.commands.lookup e.name).isSome)
    (hnd : (c.commands.map Prod.fst).Nodup) :
    c.add_command e = c
    ∧ (c.add_command e).list_all.Sorted (· ≤ ·)
    ∧ (c.add_command e).list_all.Nodup := by
  have he : c.add_command e = c := by
    simp [CommandContainer.add_command, h]
  refine ⟨he, ?_, ?_⟩
  · rw [he]
    exact List.sorted_insertionSort _ _
  · rw [he]
    exact ((List.perm_insertionSort (· ≤ ·) (c.commands.map Prod.fst)).symm).nodup hnd

/-- A one-entry container (the `clear` command already registered),
for the C9 witness. -/
def ccClear : CommandContainer :=
  ⟨[("clear", .cmd ⟨"clear", "*CLS"⟩)], [("clear", .cmd ⟨"clear", "*CLS"⟩)]⟩

/-- A second registration under the name `clear` with different command
text, for the C9 witness. -/
def eClear : Entry := .cmd ⟨"clear", "*XXX"⟩

/-- C9 witness: re-registering `clear` (with different command text)
leaves a one-entry container untouched. -/
theorem add_command_existing_noop_witness :
    ((ccClear.commands.lookup eClear.name).isSome
      ∧ (ccClear.commands.map Prod.fst).Nodup)
    ∧ ccClear.add_command eClear = ccClear :=
  ⟨⟨by decide, by decide⟩,
   (add_command_existing_noop ccClear eClear (by decide) (by decide)).1⟩

end PlGpib
